import Mathlib

/-!
Shallow embedding of src/Effects/Fx.Transitions.js (mootools-core).

JavaScript numbers are modelled as real numbers; an optional argument is
an `Option ℝ` (`none` = the argument was omitted / `undefined`).  The
JavaScript expression `x || d` (used by Pow, Back and Elastic for their
defaults) is falsy on both `undefined` and `0`, which `jsOr` captures.
`Math.pow` is modelled by `Real.rpow`, `Math.sin`/`Math.cos`/`Math.acos`
by the corresponding `Real` functions.
-/

namespace FxT

noncomputable section

/-- Type of a raw transition curve: progress plus up to three optional
forwarded parameters, as in the source wrappers `easeIn(p, x, y, z)`. -/
def Curve : Type := ℝ → Option ℝ → Option ℝ → Option ℝ → ℝ

/-- Semantics of the JavaScript default idiom `x || d`: `undefined` and
`0` are falsy, any other number is returned unchanged. -/
def jsOr : Option ℝ → ℝ → ℝ
  | none, d => d
  | some v, d => if v = 0 then d else v

/-- Source: `linear: function(t, c, d){ return c * (t / d); }`.  Called
with fewer than three arguments the missing operands are `undefined` and
the arithmetic yields NaN, modelled as `none`. -/
def linear (t : ℝ) (c d : Option ℝ) : Option ℝ :=
  match c, d with
  | some c, some d => some (c * (t / d))
  | _, _ => none

/-- Source: `Pow: function(p, x){ x = x || 6; return Math.pow(p, x); }`. -/
def Pow : Curve := fun p x _ _ => p ^ jsOr x 6

/-- Source: `Expo: function(p){ return Math.pow(2, 8 * (p - 1)); }`. -/
def Expo : Curve := fun p _ _ _ => (2 : ℝ) ^ (8 * (p - 1))

/-- Source: `Circ: function(p){ return 1 - Math.sin(Math.acos(p)); }`. -/
def Circ : Curve := fun p _ _ _ => 1 - Real.sin (Real.arccos p)

/-- Source: `Sine: function(p){ return 1 - Math.sin((1 - p) * Math.PI / 2); }`. -/
def Sine : Curve := fun p _ _ _ => 1 - Real.sin ((1 - p) * Real.pi / 2)

/-- Source: `Back: function(p, x){ x = x || 1.6180; return Math.pow(p, 2) * ((x + 1) * p - x); }`. -/
def Back : Curve := fun p x _ _ => p ^ (2 : ℝ) * ((jsOr x 1.6180 + 1) * p - jsOr x 1.6180)

/-- Source: the Bounce transition, computed on `q = 1 - p` with
`b = 7.5625`, four quadratic segments, result `-y + 1`. -/
def Bounce : Curve := fun p _ _ _ =>
  let b : ℝ := 7.5625
  let q : ℝ := 1 - p
  let y : ℝ :=
    (if q < 1 / 2.75 then b * q ^ (2 : ℝ)
     else if q < 2 / 2.75 then b * (q - 1.5 / 2.75) * (q - 1.5 / 2.75) + 0.75
     else if q < 2.5 / 2.75 then b * (q - 2.25 / 2.75) * (q - 2.25 / 2.75) + 0.9375
     else b * (q - 2.625 / 2.75) * (q - 2.625 / 2.75) + 0.984375);
  -y + 1

/-- Source: `Elastic: function(p, x, y){ y = y || 300; x = y * 0.3 / (x || 1);
return Math.pow(2, 10 * (p -= 1)) * Math.cos(2 * Math.PI * p * y / x); }`. -/
def Elastic : Curve := fun p x y _ =>
  let y2 : ℝ := jsOr y 300
  let x2 : ℝ := y2 * 0.3 / jsOr x 1
  (2 : ℝ) ^ (10 * (p - 1)) * Real.cos (2 * Real.pi * (p - 1) * y2 / x2)

/-- Source: `obj[transition] = function(p){ return Fx.Transitions.Pow(p, i + 2); }`
for Quad (i = 0). -/
def Quad : Curve := fun p _ _ _ => Pow p (some 2) none none

/-- Source: the auto-generated Cubic transition, `Pow(p, 3)`. -/
def Cubic : Curve := fun p _ _ _ => Pow p (some 3) none none

/-- Source: the auto-generated Quart transition, `Pow(p, 4)`. -/
def Quart : Curve := fun p _ _ _ => Pow p (some 4) none none

/-- Source: the auto-generated Quint transition, `Pow(p, 5)`. -/
def Quint : Curve := fun p _ _ _ => Pow p (some 5) none none

/-- Source: `easeIn: function(p, x, y, z){ return transition(p, x, y, z); }`. -/
def easeIn (transition : Curve) : Curve := fun p x y z => transition p x y z

/-- Source: `easeOut: function(p, x, y, z){ return 1 - transition(1 - p, x, y, z); }`. -/
def easeOut (transition : Curve) : Curve := fun p x y z =>
  1 - transition (1 - p) x y z

/-- Source: `easeInOut: function(p, x, y, z){ return (p <= 0.5) ?
transition(2 * p, x, y, z) / 2 : (2 - transition(2 * (1 - p), x, y, z)) / 2; }`. -/
def easeInOut (transition : Curve) : Curve := fun p x y z =>
  if p ≤ 0.5 then transition (2 * p) x y z / 2
  else (2 - transition (2 * (1 - p)) x y z) / 2

/-- Calling convention for a JavaScript transition of arity
`(p, x, y, z)` applied to an argument array: argument `i` is
`args[i]`, `undefined` (`none`) when the array is too short.  A missing
or `undefined` progress makes the arithmetic NaN, modelled as `none`. -/
def callCurve (f : Curve) (args : List (Option ℝ)) : Option ℝ :=
  match args.getD 0 none with
  | some p => some (f p (args.getD 1 none) (args.getD 2 none) (args.getD 3 none))
  | none => none

/-- Source: `Fx.Shared.SetTransitionValues = function(transition){ return
function(){ var args = $A(arguments); return function(){ return
transition.apply(Fx.Transitions, $A(arguments).concat(args)); }; } }` —
the bound callable applies the base transition to the call-time
arguments followed by the bound arguments. -/
def setTransitionValues (transition : Curve) (args : List (Option ℝ)) :
    List (Option ℝ) → Option ℝ :=
  fun callArgs => callCurve transition (callArgs ++ args)

/-- Semantics of the JavaScript `type.toLowerCase()` on the ASCII family
names used by the registry: every character is lower-cased. -/
def jsToLowerCase (s : String) : String := ⟨s.data.map Char.toLower⟩

/-- Source: `Fx.Shared.CreateTransitionEases` registers, for a family
named `type`, the three compatibility aliases
`Fx.Transitions[type.toLowerCase() + mode] = transition[ease + mode]`
for `mode` in `In`, `Out`, `InOut`, and `Fx.Transitions.extend` then
stores the transition itself under `type`. -/
def registerFamily (type : String) (transition : Curve) : List (String × Curve) :=
  [(jsToLowerCase type ++ "In", easeIn transition),
   (jsToLowerCase type ++ "Out", easeOut transition),
   (jsToLowerCase type ++ "InOut", easeInOut transition),
   (type, transition)]

/-- Derived families in source registration order: the object passed to
the first `Fx.Transitions.extend` call, then the four power aliases. -/
def familyList : List (String × Curve) :=
  [("Pow", Pow), ("Expo", Expo), ("Circ", Circ), ("Sine", Sine),
   ("Back", Back), ("Bounce", Bounce), ("Elastic", Elastic),
   ("Quad", Quad), ("Cubic", Cubic), ("Quart", Quart), ("Quint", Quint)]

/-- Registry contents produced by registering every derived family. -/
def registry : List (String × Curve) :=
  familyList.flatMap fun nf => registerFamily nf.1 nf.2

/-! Helper lemmas about the default idiom and the curve endpoints. -/

theorem jsOr_none (d : ℝ) : jsOr none d = d := rfl

theorem jsOr_some_zero (d : ℝ) : jsOr (some 0) d = d := by simp [jsOr]

theorem jsOr_some_of_ne (v d : ℝ) (h : v ≠ 0) : jsOr (some v) d = v := by
  simp [jsOr, h]

theorem Pow_at_one (x y z : Option ℝ) : Pow 1 x y z = 1 := by
  simp [Pow, Real.one_rpow]

theorem Pow_at_zero : Pow 0 none none none = 0 := by
  simp [Pow, jsOr]

theorem Quad_at_one (x y z : Option ℝ) : Quad 1 x y z = 1 := Pow_at_one _ _ _

theorem Quad_at_zero (x y z : Option ℝ) : Quad 0 x y z = 0 := by
  norm_num [Quad, Pow, jsOr]

theorem Cubic_at_one (x y z : Option ℝ) : Cubic 1 x y z = 1 := Pow_at_one _ _ _

theorem Cubic_at_zero (x y z : Option ℝ) : Cubic 0 x y z = 0 := by
  norm_num [Cubic, Pow, jsOr]

theorem Quart_at_one (x y z : Option ℝ) : Quart 1 x y z = 1 := Pow_at_one _ _ _

theorem Quart_at_zero (x y z : Option ℝ) : Quart 0 x y z = 0 := by
  norm_num [Quart, Pow, jsOr]

theorem Quint_at_one (x y z : Option ℝ) : Quint 1 x y z = 1 := Pow_at_one _ _ _

theorem Quint_at_zero (x y z : Option ℝ) : Quint 0 x y z = 0 := by
  norm_num [Quint, Pow, jsOr]

theorem Expo_at_one (x y z : Option ℝ) : Expo 1 x y z = 1 := by
  norm_num [Expo]

theorem Expo_at_zero (x y z : Option ℝ) : Expo 0 x y z = 1 / 256 := by
  norm_num [Expo]

theorem Circ_at_one (x y z : Option ℝ) : Circ 1 x y z = 1 := by
  simp [Circ, Real.arccos_one, Real.sin_zero]

theorem Circ_at_zero (x y z : Option ℝ) : Circ 0 x y z = 0 := by
  simp [Circ, Real.arccos_zero, Real.sin_pi_div_two]

theorem Sine_at_one (x y z : Option ℝ) : Sine 1 x y z = 1 := by
  simp [Sine]

theorem Sine_at_zero (x y z : Option ℝ) : Sine 0 x y z = 0 := by
  simp [Sine]

theorem Back_at_one (x y z : Option ℝ) : Back 1 x y z = 1 := by
  simp [Back, Real.one_rpow]

theorem Back_at_zero (y z : Option ℝ) : Back 0 none y z = 0 := by
  norm_num [Back, jsOr]

theorem Bounce_at_one (x y z : Option ℝ) : Bounce 1 x y z = 1 := by
  norm_num [Bounce]

theorem Bounce_at_zero (x y z : Option ℝ) : Bounce 0 x y z = 0 := by
  norm_num [Bounce]

theorem Elastic_at_one (y z : Option ℝ) : Elastic 1 none y z = 1 := by
  norm_num [Elastic, jsOr, Real.cos_zero]

theorem Elastic_at_zero : Elastic 0 none none none = -(1 / 2048) := by
  unfold Elastic jsOr
  norm_num
  rw [show (-(2 * Real.pi * 300) / 90 : ℝ)
        = -(2 * Real.pi / 3 + (3 : ℤ) * (2 * Real.pi)) by push_cast; ring]
  rw [Real.cos_neg, Real.cos_add_int_mul_two_pi]
  rw [show (2 * Real.pi / 3 : ℝ) = Real.pi - Real.pi / 3 by ring]
  rw [Real.cos_pi_sub, Real.cos_pi_div_three]
  norm_num

theorem easeInOut_half_left (f : Curve) (x y z : Option ℝ) :
    easeInOut f (1 / 2) x y z = easeIn f 1 x y z / 2 := by
  unfold easeInOut easeIn
  rw [if_pos (by norm_num : (1 / 2 : ℝ) ≤ 0.5)]
  norm_num

theorem easeInOut_half_right (f : Curve) (x y z : Option ℝ) (h : f 1 x y z = 1) :
    easeInOut f (1 / 2) x y z = (2 - easeIn f 1 x y z) / 2 := by
  rw [easeInOut_half_left f x y z]
  show f 1 x y z / 2 = (2 - f 1 x y z) / 2
  rw [h]
  norm_num

/-! Claim theorems. -/

/-- Claim C3: for every derived family, for all progress values and all
forwarded parameters, easeOut(p, params) equals 1 - easeIn(1 - p, params),
exactly: this is how `Fx.Shared.CreateTransitionEases` defines easeOut. -/
theorem C3_complement_law (f : Curve) (p : ℝ) (x y z : Option ℝ) :
    easeOut f p x y z = 1 - easeIn f (1 - p) x y z := rfl

/-- Claim C4: for every derived family with raw curve f, easeInOut(p, x)
equals f(2p, x) / 2 when p is at most 0.5 and (2 - f(2(1-p), x)) / 2 when
p exceeds 0.5. -/
theorem C4_easeInOut_branches (f : Curve) (p : ℝ) (x y z : Option ℝ) :
    (p ≤ 0.5 → easeInOut f p x y z = f (2 * p) x y z / 2) ∧
    (0.5 < p → easeInOut f p x y z = (2 - f (2 * (1 - p)) x y z) / 2) := by
  constructor
  · intro h
    unfold easeInOut
    rw [if_pos h]
  · intro h
    unfold easeInOut
    rw [if_neg (not_le.mpr h)]

/-- Witness for C4: both branches of easeInOut evaluated on the Expo
family at the concrete progress values 1/4 and 3/4. -/
theorem C4_easeInOut_branches_witness :
    easeInOut Expo (1 / 4) none none none = Expo (2 * (1 / 4)) none none none / 2 ∧
    easeInOut Expo (3 / 4) none none none
      = (2 - Expo (2 * (1 - 3 / 4)) none none none) / 2 :=
  ⟨(C4_easeInOut_branches Expo (1 / 4) none none none).1 (by norm_num),
   (C4_easeInOut_branches Expo (3 / 4) none none none).2 (by norm_num)⟩

/-- Claim C6: binding fixed parameters to a curve yields a callable that
applies the curve to the progress followed by the fixed parameters; the
base curve is untouched (binding is a pure value here) and two bindings
on the same base curve are independent callables. -/
theorem C6_bind_spec (f : Curve) (fixed fixed2 : List (Option ℝ)) (p : ℝ)
    (a b c : Option ℝ) :
    setTransitionValues f fixed [some p] = callCurve f (some p :: fixed) ∧
    setTransitionValues f [a, b, c] [some p] = some (f p a b c) ∧
    setTransitionValues f fixed2 [some p] = callCurve f (some p :: fixed2) :=
  ⟨rfl, rfl, rfl⟩

/-- Claim C7: Quad, Cubic, Quart and Quint are registered as Pow with the
fixed exponents 2, 3, 4 and 5 respectively, for every progress value. -/
theorem C7_power_family (p : ℝ) :
    Quad p none none none = Pow p (some 2) none none ∧
    Cubic p none none none = Pow p (some 3) none none ∧
    Quart p none none none = Pow p (some 4) none none ∧
    Quint p none none none = Pow p (some 5) none none :=
  ⟨rfl, rfl, rfl, rfl⟩

/-- Counterexample to claim C1: the Expo family does not satisfy the
endpoint law at p = 0: easeIn Expo 0 is 2 ^ (-8) = 1/256, not 0. -/
theorem C1_counterexample : easeIn Expo 0 none none none ≠ 0 := by
  show Expo 0 none none none ≠ 0
  norm_num [Expo]

/-- Claim C1 amended: with default parameters every derived family
satisfies easeIn(1) = 1, and every family except Expo and Elastic also
satisfies easeIn(0) = 0; Expo has easeIn(0) = 1/256 and Elastic has
easeIn(0) = -1/2048, so exactly two of the defined families violate the
endpoint law at p = 0 and none violates it at p = 1. -/
theorem C1_amended_endpoints :
    easeIn Pow 0 none none none = 0 ∧ easeIn Pow 1 none none none = 1 ∧
    easeIn Quad 0 none none none = 0 ∧ easeIn Quad 1 none none none = 1 ∧
    easeIn Cubic 0 none none none = 0 ∧ easeIn Cubic 1 none none none = 1 ∧
    easeIn Quart 0 none none none = 0 ∧ easeIn Quart 1 none none none = 1 ∧
    easeIn Quint 0 none none none = 0 ∧ easeIn Quint 1 none none none = 1 ∧
    easeIn Circ 0 none none none = 0 ∧ easeIn Circ 1 none none none = 1 ∧
    easeIn Sine 0 none none none = 0 ∧ easeIn Sine 1 none none none = 1 ∧
    easeIn Back 0 none none none = 0 ∧ easeIn Back 1 none none none = 1 ∧
    easeIn Bounce 0 none none none = 0 ∧ easeIn Bounce 1 none none none = 1 ∧
    easeIn Expo 1 none none none = 1 ∧ easeIn Elastic 1 none none none = 1 ∧
    easeIn Expo 0 none none none = 1 / 256 ∧
    easeIn Elastic 0 none none none = -(1 / 2048) :=
  ⟨Pow_at_zero, Pow_at_one _ _ _,
   Quad_at_zero _ _ _, Quad_at_one _ _ _,
   Cubic_at_zero _ _ _, Cubic_at_one _ _ _,
   Quart_at_zero _ _ _, Quart_at_one _ _ _,
   Quint_at_zero _ _ _, Quint_at_one _ _ _,
   Circ_at_zero _ _ _, Circ_at_one _ _ _,
   Sine_at_zero _ _ _, Sine_at_one _ _ _,
   Back_at_zero _ _, Back_at_one _ _ _,
   Bounce_at_zero _ _ _, Bounce_at_one _ _ _,
   Expo_at_one _ _ _, Elastic_at_one _ _,
   Expo_at_zero _ _ _, Elastic_at_zero⟩

/-- Counterexample to claim C2: an Elastic amplitude of 0 is falsy, so
the internal `x || 1` replaces it by 1 before the division: the divisor
is 1 and Elastic(1, 0) evaluates to the ordinary finite value 1 instead
of producing a division-by-zero failure. -/
theorem C2_counterexample :
    jsOr (some 0) 1 = 1 ∧ Elastic 1 (some 0) none none = 1 :=
  ⟨by simp [jsOr], by norm_num [Elastic, jsOr, Real.cos_zero]⟩

/-- Claim C2 amended: an Elastic amplitude of 0 does not cause a division
by zero: the `x || 1` fallback silently replaces the falsy amplitude 0 by
the default 1, so for every progress and period Elastic with amplitude 0
computes exactly the amplitude-1 (default) value. -/
theorem C2_elastic_zero_amplitude (p : ℝ) (u v : Option ℝ) :
    Elastic p (some 0) u v = Elastic p (some 1) u v ∧
    Elastic p (some 0) u v = Elastic p none u v := by
  constructor <;> norm_num [Elastic, jsOr]

/-- Claim C5: for every derived family with default parameters, the left
branch of easeInOut at p = 0.5 evaluates to easeIn(1)/2 and this equals
the right-branch value (2 - easeIn(1))/2, because every registered raw
curve satisfies raw(1) = 1; easeInOut is therefore continuous at 0.5. -/
theorem C5_split_continuity :
    (easeInOut Pow (1 / 2) none none none = easeIn Pow 1 none none none / 2 ∧
      easeInOut Pow (1 / 2) none none none = (2 - easeIn Pow 1 none none none) / 2) ∧
    (easeInOut Quad (1 / 2) none none none = easeIn Quad 1 none none none / 2 ∧
      easeInOut Quad (1 / 2) none none none = (2 - easeIn Quad 1 none none none) / 2) ∧
    (easeInOut Cubic (1 / 2) none none none = easeIn Cubic 1 none none none / 2 ∧
      easeInOut Cubic (1 / 2) none none none = (2 - easeIn Cubic 1 none none none) / 2) ∧
    (easeInOut Quart (1 / 2) none none none = easeIn Quart 1 none none none / 2 ∧
      easeInOut Quart (1 / 2) none none none = (2 - easeIn Quart 1 none none none) / 2) ∧
    (easeInOut Quint (1 / 2) none none none = easeIn Quint 1 none none none / 2 ∧
      easeInOut Quint (1 / 2) none none none = (2 - easeIn Quint 1 none none none) / 2) ∧
    (easeInOut Expo (1 / 2) none none none = easeIn Expo 1 none none none / 2 ∧
      easeInOut Expo (1 / 2) none none none = (2 - easeIn Expo 1 none none none) / 2) ∧
    (easeInOut Circ (1 / 2) none none none = easeIn Circ 1 none none none / 2 ∧
      easeInOut Circ (1 / 2) none none none = (2 - easeIn Circ 1 none none none) / 2) ∧
    (easeInOut Sine (1 / 2) none none none = easeIn Sine 1 none none none / 2 ∧
      easeInOut Sine (1 / 2) none none none = (2 - easeIn Sine 1 none none none) / 2) ∧
    (easeInOut Back (1 / 2) none none none = easeIn Back 1 none none none / 2 ∧
      easeInOut Back (1 / 2) none none none = (2 - easeIn Back 1 none none none) / 2) ∧
    (easeInOut Bounce (1 / 2) none none none = easeIn Bounce 1 none none none / 2 ∧
      easeInOut Bounce (1 / 2) none none none = (2 - easeIn Bounce 1 none none none) / 2) ∧
    (easeInOut Elastic (1 / 2) none none none = easeIn Elastic 1 none none none / 2 ∧
      easeInOut Elastic (1 / 2) none none none = (2 - easeIn Elastic 1 none none none) / 2) :=
  ⟨⟨easeInOut_half_left _ _ _ _, easeInOut_half_right _ _ _ _ (Pow_at_one _ _ _)⟩,
   ⟨easeInOut_half_left _ _ _ _, easeInOut_half_right _ _ _ _ (Quad_at_one _ _ _)⟩,
   ⟨easeInOut_half_left _ _ _ _, easeInOut_half_right _ _ _ _ (Cubic_at_one _ _ _)⟩,
   ⟨easeInOut_half_left _ _ _ _, easeInOut_half_right _ _ _ _ (Quart_at_one _ _ _)⟩,
   ⟨easeInOut_half_left _ _ _ _, easeInOut_half_right _ _ _ _ (Quint_at_one _ _ _)⟩,
   ⟨easeInOut_half_left _ _ _ _, easeInOut_half_right _ _ _ _ (Expo_at_one _ _ _)⟩,
   ⟨easeInOut_half_left _ _ _ _, easeInOut_half_right _ _ _ _ (Circ_at_one _ _ _)⟩,
   ⟨easeInOut_half_left _ _ _ _, easeInOut_half_right _ _ _ _ (Sine_at_one _ _ _)⟩,
   ⟨easeInOut_half_left _ _ _ _, easeInOut_half_right _ _ _ _ (Back_at_one _ _ _)⟩,
   ⟨easeInOut_half_left _ _ _ _, easeInOut_half_right _ _ _ _ (Bounce_at_one _ _ _)⟩,
   ⟨easeInOut_half_left _ _ _ _, easeInOut_half_right _ _ _ _ (Elastic_at_one _ _)⟩⟩

/-- Claim C8, code evaluation: the source defines
`linear(t, c, d) = c * (t / d)`, so a call with the single argument 0.25
leaves c and d undefined and the arithmetic yields NaN (modelled none)
rather than the value 0.25 the claim requires. -/
theorem C8_linear_single_arg : linear (1 / 4) none none = none := rfl

/-- Claim C9: a falsy (zero) tunable parameter is indistinguishable from
an omitted one: Pow(p, 0) = Pow(p, 6) = Pow(p), Back(p, 0) =
Back(p, 1.6180) = Back(p), and Elastic(p, 0, y) = Elastic(p, 1, y) =
Elastic(p, undefined, y), so a zero Elastic amplitude is silently
replaced by 1 instead of dividing by zero. -/
theorem C9_falsy_defaults (p : ℝ) (u v : Option ℝ) :
    Pow p (some 0) u v = Pow p (some 6) u v ∧
    Pow p (some 0) u v = Pow p none u v ∧
    Back p (some 0) u v = Back p (some 1.6180) u v ∧
    Back p (some 0) u v = Back p none u v ∧
    Elastic p (some 0) u v = Elastic p (some 1) u v ∧
    Elastic p (some 0) u v = Elastic p none u v := by
  refine ⟨?_, ?_, ?_, ?_, ?_, ?_⟩ <;> norm_num [Pow, Back, Elastic, jsOr]

/-- Claim C10: for every derived family registered under an uppercase
name, the registry exposes the lowercase compatibility aliases suffixed
In, Out and InOut, and each alias is the very same callable as the
corresponding easeIn, easeOut and easeInOut variant of that family. -/
theorem C10_aliases :
    List.lookup "powIn" registry = some (easeIn Pow) ∧
    List.lookup "powOut" registry = some (easeOut Pow) ∧
    List.lookup "powInOut" registry = some (easeInOut Pow) ∧
    List.lookup "expoIn" registry = some (easeIn Expo) ∧
    List.lookup "expoOut" registry = some (easeOut Expo) ∧
    List.lookup "expoInOut" registry = some (easeInOut Expo) ∧
    List.lookup "circIn" registry = some (easeIn Circ) ∧
    List.lookup "circOut" registry = some (easeOut Circ) ∧
    List.lookup "circInOut" registry = some (easeInOut Circ) ∧
    List.lookup "sineIn" registry = some (easeIn Sine) ∧
    List.lookup "sineOut" registry = some (easeOut Sine) ∧
    List.lookup "sineInOut" registry = some (easeInOut Sine) ∧
    List.lookup "backIn" registry = some (easeIn Back) ∧
    List.lookup "backOut" registry = some (easeOut Back) ∧
    List.lookup "backInOut" registry = some (easeInOut Back) ∧
    List.lookup "bounceIn" registry = some (easeIn Bounce) ∧
    List.lookup "bounceOut" registry = some (easeOut Bounce) ∧
    List.lookup "bounceInOut" registry = some (easeInOut Bounce) ∧
    List.lookup "elasticIn" registry = some (easeIn Elastic) ∧
    List.lookup "elasticOut" registry = some (easeOut Elastic) ∧
    List.lookup "elasticInOut" registry = some (easeInOut Elastic) ∧
    List.lookup "quadIn" registry = some (easeIn Quad) ∧
    List.lookup "quadOut" registry = some (easeOut Quad) ∧
    List.lookup "quadInOut" registry = some (easeInOut Quad) ∧
    List.lookup "cubicIn" registry = some (easeIn Cubic) ∧
    List.lookup "cubicOut" registry = some (easeOut Cubic) ∧
    List.lookup "cubicInOut" registry = some (easeInOut Cubic) ∧
    List.lookup "quartIn" registry = some (easeIn Quart) ∧
    List.lookup "quartOut" registry = some (easeOut Quart) ∧
    List.lookup "quartInOut" registry = some (easeInOut Quart) ∧
    List.lookup "quintIn" registry = some (easeIn Quint) ∧
    List.lookup "quintOut" registry = some (easeOut Quint) ∧
    List.lookup "quintInOut" registry = some (easeInOut Quint) :=
  ⟨rfl, rfl, rfl, rfl, rfl, rfl, rfl, rfl, rfl, rfl, rfl,
   rfl, rfl, rfl, rfl, rfl, rfl, rfl, rfl, rfl, rfl, rfl,
   rfl, rfl, rfl, rfl, rfl, rfl, rfl, rfl, rfl, rfl, rfl⟩

end

end FxT
